import Mathlib

/-!
Verification of the deprecation-warning helpers in
`telegram/_utils/warnings_transition.py`.

The module is embedded shallowly: each Python function becomes a Lean
function.  The injected warning callback (`warn_callback` / `warn`) is
modelled by returning the list of calls made to it (each call is a
`WarnCall` record carrying the message, the warning category and the
integer stack-depth parameter).  A Python `raise ValueError(msg)` is
modelled with `Except.error msg`.  Python truthiness of the dynamically
typed arguments is a parameter `truthy : α → Bool`; Python `!=` is
decidable equality on `α`.
-/

/-- The warning-category tags that occur in the module.  The code only ever
passes `PTBDeprecationWarning`. -/
inductive WarningCategory where
  | PTBDeprecationWarning
deriving DecidableEq

/-- One invocation of the warning-sink capability
`(message: string, category: tag, stack_depth: int)`. -/
structure WarnCall where
  message : String
  category : WarningCategory
  stacklevel : Nat
deriving DecidableEq

/-- Embedding of `build_deprecation_warning_message`: the f-string of the
source, written as explicit concatenation. -/
def build_deprecation_warning_message (deprecated_name new_name object_type bot_api_version : String) : String :=
  "The " ++ object_type ++ " \x27" ++ deprecated_name ++ "\x27 was renamed to \x27" ++ new_name ++ "\x27 in Bot API " ++ bot_api_version ++ ". We recommend using \x27" ++ new_name ++ "\x27 instead of \x27" ++ deprecated_name ++ "\x27."

/-- Embedding of `warn_about_deprecated_arg_return_new_arg`.  The result is
the list of warning-callback invocations made during the call, paired with
either the raised `ValueError` message or the returned value. -/
def warn_about_deprecated_arg_return_new_arg {α : Type} [DecidableEq α]
    (truthy : α → Bool)
    (deprecated_arg new_arg : α)
    (deprecated_arg_name new_arg_name bot_api_version : String)
    (stacklevel : Nat) :
    List WarnCall × Except String α :=
  if truthy deprecated_arg = true ∧ truthy new_arg = true ∧ deprecated_arg ≠ new_arg then
    ([], .error ("You passed different entities as \x27" ++ deprecated_arg_name ++ "\x27 and \x27" ++ new_arg_name ++ "\x27. " ++ build_deprecation_warning_message deprecated_arg_name new_arg_name "parameter" bot_api_version))
  else if truthy deprecated_arg = true then
    ([⟨"Bot API " ++ bot_api_version ++ " renamed the argument \x27" ++ deprecated_arg_name ++ "\x27 to \x27" ++ new_arg_name ++ "\x27.", .PTBDeprecationWarning, stacklevel + 1⟩], .ok deprecated_arg)
  else
    ([], .ok new_arg)

/-- Modelled from the spec: the options-value type `LinkPreviewOptions` is
imported from `telegram._linkpreviewoptions`, which is not among the
sources.  Per the spec, "the options-value type accepts a boolean
\x27disabled\x27 flag in its constructor"; the flag may also be the Python
`None` that an unset `disable_web_page_preview` carries, hence
`Option Bool`. -/
structure LinkPreviewOptions where
  is_disabled : Option Bool
deriving DecidableEq

/-- Modelled from the spec: the dynamically typed Python values that flow
through the link-preview adapter: `None`, a boolean, the `DefaultValue`
"unset" sentinel (imported from `telegram._utils.defaultvalue`, not among
the sources), and a `LinkPreviewOptions` object. -/
inductive PyVal where
  | pnone
  | pbool (b : Bool)
  | pdefault
  | plpo (o : LinkPreviewOptions)
deriving DecidableEq

/-- Modelled from the spec: Python truthiness on `PyVal`.  `None` and the
"unset" sentinel are falsy (the sentinel wraps `None`), a boolean is its
own truth value, and an options object is truthy. -/
def PyVal.truthy : PyVal → Bool
  | .pnone => false
  | .pbool b => b
  | .pdefault => false
  | .plpo _ => true

/-- The `ODVInput[bool]` type of `disable_web_page_preview`: the
`DefaultValue` sentinel, `None`, or a boolean. -/
inductive ODVBool where
  | default
  | none
  | bool (b : Bool)
deriving DecidableEq

/-- The `ODVInput[LinkPreviewOptions]` type of `link_preview_options`. -/
inductive ODVLpo where
  | default
  | none
  | lpo (o : LinkPreviewOptions)
deriving DecidableEq

/-- Injection of `ODVBool` into the dynamic value domain. -/
def ODVBool.toPyVal : ODVBool → PyVal
  | .default => .pdefault
  | .none => .pnone
  | .bool b => .pbool b

/-- Injection of `ODVLpo` into the dynamic value domain. -/
def ODVLpo.toPyVal : ODVLpo → PyVal
  | .default => .pdefault
  | .none => .pnone
  | .lpo o => .plpo o

/-- Embedding of `warn_for_link_preview_options`.  It calls the resolver
(discarding its returned value), then, exactly when
`disable_web_page_preview` is not the `DefaultValue` sentinel, replaces
`link_preview_options` by `LinkPreviewOptions(is_disabled=disable_web_page_preview)`. -/
def warn_for_link_preview_options (disable_web_page_preview : ODVBool)
    (link_preview_options : ODVLpo) : List WarnCall × Except String PyVal :=
  match warn_about_deprecated_arg_return_new_arg PyVal.truthy
      disable_web_page_preview.toPyVal link_preview_options.toPyVal
      "disable_web_page_preview" "link_preview_options" "7.0" 2 with
  | (warns, .error e) => (warns, .error e)
  | (warns, .ok _) =>
      match disable_web_page_preview with
      | .default => (warns, .ok link_preview_options.toPyVal)
      | .none => (warns, .ok (.plpo ⟨Option.none⟩))
      | .bool b => (warns, .ok (.plpo ⟨some b⟩))

/-- Embedding of `warn_about_deprecated_attr_in_property`: the list of
warning-callback invocations (the Python function returns `None`). -/
def warn_about_deprecated_attr_in_property (deprecated_attr_name new_attr_name bot_api_version : String) (stacklevel : Nat) : List WarnCall :=
  [⟨"Bot API " ++ bot_api_version ++ " renamed the attribute \x27" ++ deprecated_attr_name ++ "\x27 to \x27" ++ new_attr_name ++ "\x27.", .PTBDeprecationWarning, stacklevel + 1⟩]

instance {ε α : Type} [DecidableEq ε] [DecidableEq α] : DecidableEq (Except ε α) := fun x y =>
  match x, y with
  | .error a, .error b =>
      if h : a = b then .isTrue (h ▸ rfl) else .isFalse (fun hh => h (Except.error.inj hh))
  | .error _, .ok _ => .isFalse (fun hh => Except.noConfusion hh)
  | .ok _, .error _ => .isFalse (fun hh => Except.noConfusion hh)
  | .ok a, .ok b =>
      if h : a = b then .isTrue (h ▸ rfl) else .isFalse (fun hh => h (Except.ok.inj hh))

/-- `strContains s sub` : `sub` occurs inside `s`. -/
def strContains (s sub : String) : Prop := ∃ a b, s = a ++ (sub ++ b)

theorem str_append_assoc (a b c : String) : a ++ b ++ c = a ++ (b ++ c) := by
  apply String.ext
  simp [String.data_append, List.append_assoc]

/-- The raw value that `LinkPreviewOptions(is_disabled=...)` receives when
`disable_web_page_preview` is not the sentinel: `None` or the boolean. -/
def ODVBool.toOptBool : ODVBool → Option Bool
  | .default => Option.none
  | .none => Option.none
  | .bool b => some b

/-- C1: if both values are truthy and unequal, the resolver raises the
conflicting-arguments error, whose message contains the deprecated name,
the new name, and the Bot API version string. -/
theorem C1_conflict_error_message {α : Type} [DecidableEq α] (truthy : α → Bool)
    (d n : α) (dn nn bav : String) (sl : Nat)
    (hd : truthy d = true) (hn : truthy n = true) (hne : d ≠ n) :
    ∃ msg, (warn_about_deprecated_arg_return_new_arg truthy d n dn nn bav sl).2 = .error msg ∧
      strContains msg dn ∧ strContains msg nn ∧ strContains msg bav := by
  have hcond : truthy d = true ∧ truthy n = true ∧ d ≠ n := ⟨hd, hn, hne⟩
  refine ⟨"You passed different entities as \x27" ++ dn ++ "\x27 and \x27" ++ nn ++ "\x27. " ++ build_deprecation_warning_message dn nn "parameter" bav, ?_, ?_, ?_, ?_⟩
  · simp only [warn_about_deprecated_arg_return_new_arg, if_pos hcond]
  · exact ⟨"You passed different entities as \x27", "\x27 and \x27" ++ nn ++ "\x27. " ++ build_deprecation_warning_message dn nn "parameter" bav, by simp only [build_deprecation_warning_message, str_append_assoc]⟩
  · exact ⟨"You passed different entities as \x27" ++ dn ++ "\x27 and \x27", "\x27. " ++ build_deprecation_warning_message dn nn "parameter" bav, by simp only [build_deprecation_warning_message, str_append_assoc]⟩
  · exact ⟨"You passed different entities as \x27" ++ dn ++ "\x27 and \x27" ++ nn ++ "\x27. " ++ "The " ++ "parameter" ++ " \x27" ++ dn ++ "\x27 was renamed to \x27" ++ nn ++ "\x27 in Bot API ", ". We recommend using \x27" ++ nn ++ "\x27 instead of \x27" ++ dn ++ "\x27.", by simp only [build_deprecation_warning_message, str_append_assoc]⟩

/-- Witness for C1 at concrete input. -/
theorem C1_witness :
    ∃ msg, (warn_about_deprecated_arg_return_new_arg (fun k : Nat => decide (k ≠ 0)) 1 2 "old" "new" "7.0" 2).2 = .error msg ∧ strContains msg "old" ∧ strContains msg "new" ∧ strContains msg "7.0" :=
  C1_conflict_error_message (fun k : Nat => decide (k ≠ 0)) 1 2 "old" "new" "7.0" 2 (by decide) (by decide) (by decide)

/-- C2: truthy deprecated value and falsy new value: the resolver returns
the deprecated value and invokes the warning callback exactly once, with a
message containing both argument names. -/
theorem C2_deprecated_only_warns_once {α : Type} [DecidableEq α] (truthy : α → Bool)
    (d n : α) (dn nn bav : String) (sl : Nat)
    (hd : truthy d = true) (hn : truthy n = false) :
    ∃ w, warn_about_deprecated_arg_return_new_arg truthy d n dn nn bav sl = ([w], .ok d) ∧
      strContains w.message dn ∧ strContains w.message nn := by
  have hcond : ¬(truthy d = true ∧ truthy n = true ∧ d ≠ n) := by
    rintro ⟨_, h2, _⟩
    rw [hn] at h2
    exact Bool.false_ne_true h2
  refine ⟨⟨"Bot API " ++ bav ++ " renamed the argument \x27" ++ dn ++ "\x27 to \x27" ++ nn ++ "\x27.", .PTBDeprecationWarning, sl + 1⟩, ?_, ?_, ?_⟩
  · simp only [warn_about_deprecated_arg_return_new_arg, if_neg hcond, if_pos hd]
  · exact ⟨"Bot API " ++ bav ++ " renamed the argument \x27", "\x27 to \x27" ++ nn ++ "\x27.", by simp only [str_append_assoc]⟩
  · exact ⟨"Bot API " ++ bav ++ " renamed the argument \x27" ++ dn ++ "\x27 to \x27", "\x27.", by simp only [str_append_assoc]⟩

/-- Witness for C2 at concrete input. -/
theorem C2_witness :
    ∃ w, warn_about_deprecated_arg_return_new_arg (fun k : Nat => decide (k ≠ 0)) 5 0 "old" "new" "7.0" 2 = ([w], .ok 5) ∧ strContains w.message "old" ∧ strContains w.message "new" :=
  C2_deprecated_only_warns_once (fun k : Nat => decide (k ≠ 0)) 5 0 "old" "new" "7.0" 2 (by decide) (by decide)

/-- C3: falsy deprecated value: the resolver returns the new value
unchanged and invokes the warning callback zero times, for every new
value. -/
theorem C3_falsy_deprecated_returns_new {α : Type} [DecidableEq α] (truthy : α → Bool)
    (d n : α) (dn nn bav : String) (sl : Nat)
    (hd : truthy d = false) :
    warn_about_deprecated_arg_return_new_arg truthy d n dn nn bav sl = ([], .ok n) := by
  have hcond : ¬(truthy d = true ∧ truthy n = true ∧ d ≠ n) := by
    rintro ⟨h1, _, _⟩
    rw [hd] at h1
    exact Bool.false_ne_true h1
  have hd2 : ¬ truthy d = true := by
    rw [hd]
    exact Bool.false_ne_true
  simp only [warn_about_deprecated_arg_return_new_arg, if_neg hcond, if_neg hd2]

/-- Witness for C3 at concrete input. -/
theorem C3_witness :
    warn_about_deprecated_arg_return_new_arg (fun k : Nat => decide (k ≠ 0)) 0 7 "old" "new" "7.0" 2 = ([], .ok 7) :=
  C3_falsy_deprecated_returns_new (fun k : Nat => decide (k ≠ 0)) 0 7 "old" "new" "7.0" 2 (by decide)

/-- C4: both values truthy and equal: the resolver does not raise, returns
the (equal) value, and invokes the warning callback exactly once. -/
theorem C4_equal_truthy_warns_once {α : Type} [DecidableEq α] (truthy : α → Bool)
    (d n : α) (dn nn bav : String) (sl : Nat)
    (hd : truthy d = true) (hn : truthy n = true) (he : d = n) :
    ∃ w, warn_about_deprecated_arg_return_new_arg truthy d n dn nn bav sl = ([w], .ok d) := by
  have hcond : ¬(truthy d = true ∧ truthy n = true ∧ d ≠ n) := by
    rintro ⟨_, _, h3⟩
    exact h3 he
  exact ⟨⟨"Bot API " ++ bav ++ " renamed the argument \x27" ++ dn ++ "\x27 to \x27" ++ nn ++ "\x27.", .PTBDeprecationWarning, sl + 1⟩, by simp only [warn_about_deprecated_arg_return_new_arg, if_neg hcond, if_pos hd]⟩

/-- Witness for C4 at concrete input. -/
theorem C4_witness :
    ∃ w, warn_about_deprecated_arg_return_new_arg (fun k : Nat => decide (k ≠ 0)) 4 4 "old" "new" "7.0" 2 = ([w], .ok 4) :=
  C4_equal_truthy_warns_once (fun k : Nat => decide (k ≠ 0)) 4 4 "old" "new" "7.0" 2 (by decide) (by decide) (by decide)

/-- C5: `warn_for_link_preview_options(True, UNSET)` returns an options
value with the disabled flag set to `True` and emits exactly one warning;
`warn_for_link_preview_options(UNSET, someOptions)` returns `someOptions`
unchanged and emits zero warnings. -/
theorem C5_link_preview_options_cases (o : LinkPreviewOptions) :
    warn_for_link_preview_options (.bool true) .default = ([⟨"Bot API 7.0 renamed the argument \x27disable_web_page_preview\x27 to \x27link_preview_options\x27.", .PTBDeprecationWarning, 3⟩], .ok (.plpo ⟨some true⟩)) ∧
    warn_for_link_preview_options .default (.lpo o) = ([], .ok (.plpo o)) := by
  exact ⟨by decide, rfl⟩

/-- C6: in the conflict case the resolver raises with zero warnings
emitted; moreover every call either emits no warnings or returns a value,
so raising and warning are mutually exclusive. -/
theorem C6_error_excludes_warning {α : Type} [DecidableEq α] (truthy : α → Bool)
    (d n : α) (dn nn bav : String) (sl : Nat)
    (hd : truthy d = true) (hn : truthy n = true) (hne : d ≠ n) :
    (∃ msg, warn_about_deprecated_arg_return_new_arg truthy d n dn nn bav sl = ([], .error msg)) ∧
    ∀ d2 n2 : α, (warn_about_deprecated_arg_return_new_arg truthy d2 n2 dn nn bav sl).1 = [] ∨
      ∃ r, (warn_about_deprecated_arg_return_new_arg truthy d2 n2 dn nn bav sl).2 = .ok r := by
  constructor
  · exact ⟨"You passed different entities as \x27" ++ dn ++ "\x27 and \x27" ++ nn ++ "\x27. " ++ build_deprecation_warning_message dn nn "parameter" bav, by simp only [warn_about_deprecated_arg_return_new_arg, if_pos (⟨hd, hn, hne⟩ : truthy d = true ∧ truthy n = true ∧ d ≠ n)]⟩
  · intro d2 n2
    by_cases h1 : truthy d2 = true ∧ truthy n2 = true ∧ d2 ≠ n2
    · left
      simp only [warn_about_deprecated_arg_return_new_arg, if_pos h1]
    · by_cases h2 : truthy d2 = true
      · right
        exact ⟨d2, by simp only [warn_about_deprecated_arg_return_new_arg, if_neg h1, if_pos h2]⟩
      · left
        simp only [warn_about_deprecated_arg_return_new_arg, if_neg h1, if_neg h2]

/-- Witness for C6 at concrete input. -/
theorem C6_witness :
    (∃ msg, warn_about_deprecated_arg_return_new_arg (fun k : Nat => decide (k ≠ 0)) 1 2 "old" "new" "7.0" 2 = ([], .error msg)) ∧
    ∀ d2 n2 : Nat, (warn_about_deprecated_arg_return_new_arg (fun k : Nat => decide (k ≠ 0)) d2 n2 "old" "new" "7.0" 2).1 = [] ∨
      ∃ r, (warn_about_deprecated_arg_return_new_arg (fun k : Nat => decide (k ≠ 0)) d2 n2 "old" "new" "7.0" 2).2 = .ok r :=
  C6_error_excludes_warning (fun k : Nat => decide (k ≠ 0)) 1 2 "old" "new" "7.0" 2 (by decide) (by decide) (by decide)

/-- C7 counterexample: with caller-supplied `stacklevel = 2`, the single
warning call carries stack-depth `3`, not `2`: the code passes
`stacklevel + 1`, not the caller-supplied hint itself. -/
theorem C7_counterexample :
    (warn_about_deprecated_arg_return_new_arg (fun k : Nat => decide (k ≠ 0)) 3 0 "old" "new" "7.0" 2).1.map WarnCall.stacklevel = [3] ∧ (3 : Nat) ≠ 2 := by decide

/-- C7 amended: in the warn branch the resolver invokes the callback with
the deprecation-warning category and stack-depth `stacklevel + 1`, the
caller-supplied hint incremented by one. -/
theorem C7_amended_stacklevel {α : Type} [DecidableEq α] (truthy : α → Bool)
    (d n : α) (dn nn bav : String) (sl : Nat)
    (hd : truthy d = true) (hnc : ¬(truthy n = true ∧ d ≠ n)) :
    ∃ msg, (warn_about_deprecated_arg_return_new_arg truthy d n dn nn bav sl).1 = [⟨msg, .PTBDeprecationWarning, sl + 1⟩] := by
  have hcond : ¬(truthy d = true ∧ truthy n = true ∧ d ≠ n) := by
    rintro ⟨_, h2, h3⟩
    exact hnc ⟨h2, h3⟩
  exact ⟨"Bot API " ++ bav ++ " renamed the argument \x27" ++ dn ++ "\x27 to \x27" ++ nn ++ "\x27.", by simp only [warn_about_deprecated_arg_return_new_arg, if_neg hcond, if_pos hd]⟩

/-- Witness for the amended C7 at concrete input. -/
theorem C7_witness :
    ∃ msg, (warn_about_deprecated_arg_return_new_arg (fun k : Nat => decide (k ≠ 0)) 5 0 "old" "new" "7.0" 2).1 = [⟨msg, .PTBDeprecationWarning, 3⟩] :=
  C7_amended_stacklevel (fun k : Nat => decide (k ≠ 0)) 5 0 "old" "new" "7.0" 2 (by decide) (by decide)

/-- C8: the message builder is the deterministic rename template, and the
concrete example from the spec evaluates to the exact literal. -/
theorem C8_message_template (dn nn ot bav : String) :
    build_deprecation_warning_message dn nn ot bav =
      "The " ++ ot ++ " \x27" ++ dn ++ "\x27 was renamed to \x27" ++ nn ++ "\x27 in Bot API " ++ bav ++ ". We recommend using \x27" ++ nn ++ "\x27 instead of \x27" ++ dn ++ "\x27." ∧
    build_deprecation_warning_message "foo" "bar" "parameter" "7.0" =
      "The parameter \x27foo\x27 was renamed to \x27bar\x27 in Bot API 7.0. We recommend using \x27bar\x27 instead of \x27foo\x27." :=
  ⟨rfl, by decide⟩

/-- C9: for every input, `warn_about_deprecated_attr_in_property` emits
exactly one deprecation-category warning following the fixed rename
template, with stack-depth `stacklevel + 1`, and returns nothing else. -/
theorem C9_attr_property_single_warning (dn nn bav : String) (sl : Nat) :
    warn_about_deprecated_attr_in_property dn nn bav sl =
      [⟨"Bot API " ++ bav ++ " renamed the attribute \x27" ++ dn ++ "\x27 to \x27" ++ nn ++ "\x27.", .PTBDeprecationWarning, sl + 1⟩] := rfl

/-- C10: when `disable_web_page_preview` is an explicitly passed falsy
non-sentinel value, `warn_for_link_preview_options` emits zero warnings
and returns a newly constructed `LinkPreviewOptions` built from that
value, whatever `link_preview_options` the caller supplied. -/
theorem C10_falsy_explicit_replaces (o : ODVLpo) (dwpp : ODVBool)
    (hfalsy : PyVal.truthy dwpp.toPyVal = false) (hns : dwpp ≠ .default) :
    warn_for_link_preview_options dwpp o = ([], .ok (.plpo ⟨dwpp.toOptBool⟩)) := by
  cases dwpp with
  | default => exact absurd rfl hns
  | none => rfl
  | bool b =>
    cases b with
    | false => rfl
    | true => exact absurd hfalsy (by decide)

/-- Witness for C10 at concrete input. -/
theorem C10_witness :
    warn_for_link_preview_options (.bool false) (.lpo ⟨some true⟩) = ([], .ok (.plpo ⟨some false⟩)) :=
  C10_falsy_explicit_replaces (.lpo ⟨some true⟩) (.bool false) (by decide) (by decide)
